import Mathlib

/-!
Verification development for the SIREN report engine
(`src/report_engine.py`): the incident-report data model, its builder
methods, the composite severity-scoring algorithm, and the
dictionary serialization.

Modelling conventions:

* Python strings are Lean `String`s; Python's string comparison
  (lexicographic by Unicode code point) is embedded as the executable
  `dataLE` / `strLE` below, because the kernel cannot reduce the
  builtin `String` order.
* Every float appearing in `calculate_severity_score` is a multiple of
  0.25 (base weights are ints; the factors are multiples of 0.5 and
  0.75 capped at 3; the bonus is 1.5; the clamp is 10), hence exactly
  representable in IEEE-754 doubles, and Python's `round(x, 1)` on
  exactly representable values is round-half-to-even on the true
  value.  The scoring is therefore embedded exactly: factor values are
  carried as naturals counting quarters (4x the float value) and the
  rounded score as a natural counting tenths (10x the float value).
  The function `pyRound1` on `ℚ` is the exact meaning of Python's
  `round(·, 1)` on these values, and bridge lemmas connect the integer
  embedding to the `ℚ`-valued formula of the specification.
* `list.sort(key=...)` in Python is a stable sort; it is embedded as
  `List.mergeSort`, which is stable.
* `datetime.utcnow()` and `uuid.uuid4()` inside `__post_init__` are
  nondeterministic inputs; `post_init` therefore takes the two
  generated strings as explicit parameters.
-/

/-- Code-point comparison of single characters, as a natural number. -/
def charCode (c : Char) : ℕ := c.val.toNat

/-- Lexicographic (code-point) order on lists of characters: this is
exactly Python's `<=` on strings restricted to their code points. -/
def dataLE : List Char → List Char → Bool
  | [], _ => true
  | _ :: _, [] => false
  | a :: as, b :: bs =>
    if charCode a < charCode b then true
    else if charCode b < charCode a then false
    else dataLE as bs

/-- Python's `<=` on strings: lexicographic comparison by code point. -/
def strLE (a b : String) : Bool := dataLE a.data b.data

/-- Whitespace predicate of Python's `str.strip()` (`str.isspace`
characters): ASCII whitespace, the information separators, NEL, NBSP
and the Unicode space separators. -/
def pyIsSpace (c : Char) : Bool :=
  (9 ≤ charCode c && charCode c ≤ 13) || (28 ≤ charCode c && charCode c ≤ 32) ||
  charCode c == 133 || charCode c == 160 || charCode c == 5760 ||
  (8192 ≤ charCode c && charCode c ≤ 8202) || charCode c == 8232 ||
  charCode c == 8233 || charCode c == 8239 || charCode c == 8287 ||
  charCode c == 12288

/-- Python's `s.strip()`: drop leading and trailing whitespace. -/
def pyStrip (s : String) : String :=
  ⟨((s.data.dropWhile pyIsSpace).reverse.dropWhile pyIsSpace).reverse⟩

/-- Mirrors the `TimelineEvent` dataclass (`report_engine.py` lines 47-59). -/
structure TimelineEvent where
  timestamp : String
  description : String
  source : String := ""
deriving DecidableEq

/-- Mirrors the `IOC` dataclass (`report_engine.py` lines 62-74). -/
structure IOC where
  ioc_type : String
  value : String
  context : String := ""
deriving DecidableEq

/-- Mirrors the `AffectedSystem` dataclass (`report_engine.py` lines 77-89). -/
structure AffectedSystem where
  hostname : String
  ip_address : String
  impact : String := ""
deriving DecidableEq

/-- Mirrors the `IncidentReport` dataclass fields (`report_engine.py`
lines 92-121), with the same defaults. -/
structure IncidentReport where
  title : String
  severity : String := "Medium"
  category : String := "Other"
  analyst : String := ""
  description : String := ""
  detection_date : String := ""
  containment_date : String := ""
  eradication_date : String := ""
  recovery_date : String := ""
  executive_summary : String := ""
  incident_id : String := ""
  created_at : String := ""
  timeline_events : List TimelineEvent := []
  iocs : List IOC := []
  affected_systems : List AffectedSystem := []
  recommendations : List String := []
deriving DecidableEq

/-- Mirrors `__post_init__` (`report_engine.py` lines 123-128): the
generated incident id and the generated creation timestamp are passed
in explicitly because they come from `utcnow`/`uuid4`.  Python's
`if not self.incident_id` is truthiness of a string, i.e. emptiness. -/
def IncidentReport.post_init
    (r : IncidentReport) (genId genCreatedAt : String) : IncidentReport :=
  { r with
    incident_id := if r.incident_id = "" then genId else r.incident_id,
    created_at := if r.created_at = "" then genCreatedAt else r.created_at }

/-- Comparison used by the timeline sort: `key=lambda e: e.timestamp`
under Python's string order. -/
def tsLE (a b : TimelineEvent) : Bool := strLE a.timestamp b.timestamp

/-- Mirrors `add_timeline_event` (`report_engine.py` lines 144-153):
append the new event, then stable-sort the whole list by timestamp
(Python's `list.sort` is stable; `List.mergeSort` is stable). -/
def IncidentReport.add_timeline_event
    (r : IncidentReport) (timestamp description : String) (source : String := "") :
    IncidentReport :=
  let event : TimelineEvent :=
    { timestamp := timestamp, description := description, source := source }
  { r with timeline_events := (r.timeline_events ++ [event]).mergeSort tsLE }

/-- Mirrors `add_ioc` (`report_engine.py` lines 155-158). -/
def IncidentReport.add_ioc
    (r : IncidentReport) (ioc_type value : String) (context : String := "") :
    IncidentReport :=
  { r with iocs := r.iocs ++ [{ ioc_type := ioc_type, value := value, context := context }] }

/-- Mirrors `add_affected_system` (`report_engine.py` lines 160-165). -/
def IncidentReport.add_affected_system
    (r : IncidentReport) (hostname ip_address : String) (impact : String := "") :
    IncidentReport :=
  { r with
    affected_systems :=
      r.affected_systems ++ [{ hostname := hostname, ip_address := ip_address,
                               impact := impact }] }

/-- Mirrors `add_recommendation` (`report_engine.py` lines 167-170):
append the stripped text only when it is non-empty (Python truthiness
of `recommendation.strip()`). -/
def IncidentReport.add_recommendation
    (r : IncidentReport) (recommendation : String) : IncidentReport :=
  if pyStrip recommendation = "" then r
  else { r with recommendations := r.recommendations ++ [pyStrip recommendation] }

/-- Mirrors the module-level `SEVERITY_WEIGHTS` dict (`report_engine.py`
lines 39-44). -/
def SEVERITY_WEIGHTS : List (String × ℕ) :=
  [("Low", 1), ("Medium", 2), ("High", 3), ("Critical", 4)]

/-- Round-half-to-even of a quarter-count to a tenth-count: for a
natural `k`, `roundQuartersToTenths k` is `10 * round(k/4, 1)` under
Python's `round` (banker's rounding), computed exactly: `k/4` in
tenths is `5*k/2`, an integer when `5*k` is even and otherwise a tie
broken towards the even neighbour. -/
def roundQuartersToTenths (k : ℕ) : ℕ :=
  if 5 * k % 2 = 0 then 5 * k / 2
  else if 5 * k / 2 % 2 = 0 then 5 * k / 2 else 5 * k / 2 + 1

/-- Breakdown component of the severity-score result
(`report_engine.py` lines 206-211); float components are carried as
tenth-counts (10x the float value). -/
structure ScoreBreakdown where
  base_severity : ℕ
  ioc_factor10 : ℕ
  system_factor10 : ℕ
  critical_bonus10 : ℕ
deriving DecidableEq

/-- Result of `calculate_severity_score` (`report_engine.py` lines
203-212); the float score is carried as a tenth-count `score10`
(10x the float value, exact because the score is a multiple of 0.05). -/
structure SeverityScore where
  score10 : ℕ
  rating : String
  breakdown : ScoreBreakdown
deriving DecidableEq

/-- Mirrors `calculate_severity_score` (`report_engine.py` lines
176-212).  Factor floats are exact multiples of 0.25 and are carried
as quarter-counts (4x the float value): `len(iocs)*0.5` is
`len(iocs)*2` quarters capped at `12` quarters (3.0), etc.  `raw` is
`base*4 + ...` quarters, the clamp `min(raw, 10)` is `min raw4 40`,
and `round(·, 1)` is `roundQuartersToTenths`.  The rating thresholds
8/6/4 on the rounded score are 80/60/40 in tenths. -/
def IncidentReport.calculate_severity_score (r : IncidentReport) : SeverityScore :=
  let base := (List.lookup r.severity SEVERITY_WEIGHTS).getD 2
  let ioc_factor4 := min (r.iocs.length * 2) 12
  let system_factor4 := min (r.affected_systems.length * 3) 12
  let critical_bonus4 := if r.severity = "Critical" then 6 else 0
  let raw4 := base * 4 + ioc_factor4 + system_factor4 + critical_bonus4
  let score10 := roundQuartersToTenths (min raw4 40)
  let rating :=
    if 80 ≤ score10 then "CRITICAL"
    else if 60 ≤ score10 then "HIGH"
    else if 40 ≤ score10 then "MEDIUM"
    else "LOW"
  { score10 := score10
    rating := rating
    breakdown :=
      { base_severity := base
        ioc_factor10 := roundQuartersToTenths ioc_factor4
        system_factor10 := roundQuartersToTenths system_factor4
        critical_bonus10 := 5 * critical_bonus4 / 2 } }

/-- Serialized form of a `TimelineEvent` (`report_engine.py` lines 54-59). -/
structure TimelineEventDict where
  timestamp : String
  description : String
  source : String
deriving DecidableEq

/-- Serialized form of an `IOC` (`report_engine.py` lines 69-74); the
dict key is `"type"`. -/
structure IOCDict where
  type : String
  value : String
  context : String
deriving DecidableEq

/-- Serialized form of an `AffectedSystem` (`report_engine.py` lines 84-89). -/
structure AffectedSystemDict where
  hostname : String
  ip_address : String
  impact : String
deriving DecidableEq

/-- The `dates` sub-dictionary of `to_dict` (`report_engine.py` lines 228-233). -/
structure DatesDict where
  detection : String
  containment : String
  eradication : String
  recovery : String
deriving DecidableEq

/-- The dictionary returned by `IncidentReport.to_dict`
(`report_engine.py` lines 218-240). -/
structure ReportDict where
  incident_id : String
  title : String
  severity : String
  category : String
  analyst : String
  description : String
  created_at : String
  dates : DatesDict
  executive_summary : String
  severity_score : SeverityScore
  timeline : List TimelineEventDict
  iocs : List IOCDict
  affected_systems : List AffectedSystemDict
  recommendations : List String
deriving DecidableEq

/-- Mirrors `TimelineEvent.to_dict` (`report_engine.py` lines 54-59). -/
def TimelineEvent.to_dict (e : TimelineEvent) : TimelineEventDict :=
  { timestamp := e.timestamp, description := e.description, source := e.source }

/-- Mirrors `IOC.to_dict` (`report_engine.py` lines 69-74). -/
def IOC.to_dict (i : IOC) : IOCDict :=
  { type := i.ioc_type, value := i.value, context := i.context }

/-- Mirrors `AffectedSystem.to_dict` (`report_engine.py` lines 84-89). -/
def AffectedSystem.to_dict (s : AffectedSystem) : AffectedSystemDict :=
  { hostname := s.hostname, ip_address := s.ip_address, impact := s.impact }

/-- Mirrors `IncidentReport.to_dict` (`report_engine.py` lines 218-240). -/
def IncidentReport.to_dict (r : IncidentReport) : ReportDict :=
  { incident_id := r.incident_id
    title := r.title
    severity := r.severity
    category := r.category
    analyst := r.analyst
    description := r.description
    created_at := r.created_at
    dates :=
      { detection := r.detection_date
        containment := r.containment_date
        eradication := r.eradication_date
        recovery := r.recovery_date }
    executive_summary := r.executive_summary
    severity_score := r.calculate_severity_score
    timeline := r.timeline_events.map TimelineEvent.to_dict
    iocs := r.iocs.map IOC.to_dict
    affected_systems := r.affected_systems.map AffectedSystem.to_dict
    recommendations := r.recommendations }

/-- Exact round-half-to-even to an integer on the rationals: the value
of Python's `round(q)` whenever `q` is the exact value of the float
argument. -/
def roundHalfEven (q : ℚ) : ℤ :=
  if q - ⌊q⌋ < 1 / 2 then ⌊q⌋
  else if 1 / 2 < q - ⌊q⌋ then ⌊q⌋ + 1
  else if ⌊q⌋ % 2 = 0 then ⌊q⌋ else ⌊q⌋ + 1

/-- Exact meaning of Python's `round(q, 1)` on an exactly represented
value `q`: round `10*q` half-to-even to an integer, divide by 10. -/
def pyRound1 (q : ℚ) : ℚ := (roundHalfEven (q * 10) : ℚ) / 10

/-- The severity score of a report as the rational number it denotes
(the float `score` is `score10 / 10` exactly). -/
def IncidentReport.scoreQ (r : IncidentReport) : ℚ :=
  (r.calculate_severity_score.score10 : ℚ) / 10

/-- Replays a sequence of `add_timeline_event` calls: each list entry
supplies the `(timestamp, description, source)` arguments of one call. -/
def applyTimeline (r : IncidentReport) (evs : List TimelineEvent) : IncidentReport :=
  evs.foldl (fun acc e => acc.add_timeline_event e.timestamp e.description e.source) r

/-- The severity-score formula exactly as the specification words it
(spec section 4.1, steps 1-6): base weight plus the two capped factors
plus the critical bonus, clamped at 10.0 and rounded to one decimal
place, as the exact rational value of the resulting float. -/
def specSeverityScoreQ (r : IncidentReport) : ℚ :=
  pyRound1 (min (((List.lookup r.severity SEVERITY_WEIGHTS).getD 2 : ℚ)
    + min ((r.iocs.length : ℚ) * (1 / 2)) 3
    + min ((r.affected_systems.length : ℚ) * (3 / 4)) 3
    + (if r.severity = "Critical" then 3 / 2 else 0)) 10)

/-- Fixture: a single indicator of compromise. -/
def iocFix : IOC := { ioc_type := "IP Address", value := "203.0.113.7" }

/-- Fixture: a single affected system. -/
def sysFix : AffectedSystem := { hostname := "web01", ip_address := "10.0.0.2" }

/-- Fixture: a report with a severity string outside the weight table. -/
def reportUnknownSev : IncidentReport :=
  { title := "Suspicious beaconing", severity := "SEV-1" }

/-- Fixture: a report whose severity is a non-exact casing of Critical. -/
def reportLowercaseCritical : IncidentReport :=
  { title := "Ransomware outbreak", severity := "critical",
    iocs := [iocFix], affected_systems := [sysFix] }

/-- Fixture: Medium severity, ten IOCs, no affected systems. -/
def reportMediumTen : IncidentReport :=
  { title := "Phishing wave", severity := "Medium", iocs := List.replicate 10 iocFix }

/-- Fixture: Critical severity, no IOCs, no affected systems. -/
def reportCriticalBare : IncidentReport :=
  { title := "Domain admin compromise", severity := "Critical" }

/-- Fixture: a plain report with empty timeline. -/
def reportPlain : IncidentReport :=
  { title := "Defacement", incident_id := "IR-20250101-AB12",
    created_at := "2025-01-01 00:00:00 UTC",
    recommendations := ["Patch CVE-1234"] }

/-- Fixture timeline events; the two sharing a timestamp exercise
stability of the sort. -/
def evEarly : TimelineEvent :=
  { timestamp := "2025-01-01 09:00", description := "initial access" }

/-- Fixture timeline event with the later timestamp, inserted first. -/
def evTieFirst : TimelineEvent :=
  { timestamp := "2025-01-01 10:00", description := "lateral movement" }

/-- Fixture timeline event tied with `evTieFirst`, inserted after it. -/
def evTieSecond : TimelineEvent :=
  { timestamp := "2025-01-01 10:00", description := "payload staged" }

theorem dataLE_refl : ∀ l : List Char, dataLE l l = true
  | [] => rfl
  | a :: as => by
    simp only [dataLE, lt_irrefl, if_false, ite_self]
    exact dataLE_refl as

theorem dataLE_trans :
    ∀ a b c : List Char, dataLE a b = true → dataLE b c = true → dataLE a c = true
  | [], _, _, _, _ => rfl
  | _ :: _, [], _, h, _ => by simp [dataLE] at h
  | _ :: _, _ :: _, [], _, h => by simp [dataLE] at h
  | a :: as, b :: bs, c :: cs, hab, hbc => by
    simp only [dataLE] at hab hbc ⊢
    by_cases h1 : charCode a < charCode b
    · by_cases h3 : charCode b < charCode c
      · have : charCode a < charCode c := lt_trans h1 h3
        simp [this]
      · by_cases h4 : charCode c < charCode b
        · simp [h3, h4] at hbc
        · have hbc' : charCode b = charCode c := le_antisymm (not_lt.mp h4) (not_lt.mp h3)
          have : charCode a < charCode c := hbc' ▸ h1
          simp [this]
    · by_cases h2 : charCode b < charCode a
      · simp [h1, h2] at hab
      · have hab' : charCode a = charCode b := le_antisymm (not_lt.mp h2) (not_lt.mp h1)
        simp only [h1, if_false, h2, if_false] at hab
        by_cases h3 : charCode b < charCode c
        · have : charCode a < charCode c := hab' ▸ h3
          simp [this]
        · by_cases h4 : charCode c < charCode b
          · simp [h3, h4] at hbc
          · simp only [h3, if_false, h4, if_false] at hbc
            have e1 : ¬ charCode a < charCode c := by omega
            have e2 : ¬ charCode c < charCode a := by omega
            simp only [e1, if_false, e2, if_false]
            exact dataLE_trans as bs cs hab hbc

theorem dataLE_total : ∀ a b : List Char, dataLE a b || dataLE b a
  | [], _ => by simp [dataLE]
  | _ :: _, [] => by simp [dataLE]
  | a :: as, b :: bs => by
    simp only [dataLE]
    rcases Nat.lt_trichotomy (charCode a) (charCode b) with h | h | h
    · simp [h]
    · have h1 : ¬ charCode a < charCode b := by omega
      have h2 : ¬ charCode b < charCode a := by omega
      simp only [h1, if_false, h2, if_false]
      exact dataLE_total as bs
    · have h1 : ¬ charCode a < charCode b := by omega
      simp [h1, h]

theorem roundHalfEven_natCast_div_two (m : ℕ) :
    roundHalfEven ((m : ℚ) / 2)
      = if m % 2 = 0 then (m / 2 : ℕ)
        else if (m / 2) % 2 = 0 then (m / 2 : ℕ) else ((m / 2 : ℕ) + 1 : ℕ) := by
  have hfloor : ⌊(m : ℚ) / 2⌋ = (m : ℤ) / 2 := by
    simpa using Rat.floor_intCast_div_natCast (m : ℤ) 2
  rcases Nat.even_or_odd m with ⟨j, hj⟩ | ⟨j, hj⟩
  · subst hj
    have hv : ((j + j : ℕ) : ℚ) / 2 = ((j : ℤ) : ℚ) := by push_cast; ring
    have hfl : ⌊((j + j : ℕ) : ℚ) / 2⌋ = (j : ℤ) := by
      rw [hv, Int.floor_intCast]
    have hlt : ((j + j : ℕ) : ℚ) / 2 - (⌊((j + j : ℕ) : ℚ) / 2⌋ : ℚ) < 1 / 2 := by
      rw [hfl, hv]
      norm_num
    rw [roundHalfEven, if_pos hlt, hfl]
    have h2 : (j + j) % 2 = 0 := by omega
    have h3 : (j + j) / 2 = j := by omega
    rw [if_pos h2, h3]
  · subst hj
    have hfl : ⌊((2 * j + 1 : ℕ) : ℚ) / 2⌋ = (j : ℤ) := by
      rw [hfloor]
      push_cast
      omega
    have hfr : ((2 * j + 1 : ℕ) : ℚ) / 2 - (⌊((2 * j + 1 : ℕ) : ℚ) / 2⌋ : ℚ) = 1 / 2 := by
      rw [hfl]
      push_cast
      ring
    have h1 : ¬ (((2 * j + 1 : ℕ) : ℚ) / 2 - (⌊((2 * j + 1 : ℕ) : ℚ) / 2⌋ : ℚ) < 1 / 2) := by
      rw [hfr]
      norm_num
    have h2 : ¬ (1 / 2 < ((2 * j + 1 : ℕ) : ℚ) / 2 - (⌊((2 * j + 1 : ℕ) : ℚ) / 2⌋ : ℚ)) := by
      rw [hfr]
      norm_num
    rw [roundHalfEven, if_neg h1, if_neg h2, hfl]
    have hm : ¬ ((2 * j + 1) % 2 = 0) := by omega
    have hd : (2 * j + 1) / 2 = j := by omega
    rw [if_neg hm, hd]
    by_cases hp : j % 2 = 0
    · have hp' : (j : ℤ) % 2 = 0 := by omega
      rw [if_pos hp', if_pos hp]
    · have hp' : ¬ ((j : ℤ) % 2 = 0) := by omega
      rw [if_neg hp', if_neg hp]
      push_cast
      ring

/-- Bridge between the integer embedding of the score rounding and the
exact rational meaning of Python's `round(·, 1)`: rounding a
quarter-count `k` to tenths agrees with `pyRound1` on `k/4`. -/
theorem roundQuartersToTenths_eq_pyRound1 (k : ℕ) :
    (roundQuartersToTenths k : ℚ) / 10 = pyRound1 ((k : ℚ) / 4) := by
  have harg : ((k : ℚ) / 4) * 10 = ((5 * k : ℕ) : ℚ) / 2 := by push_cast; ring
  rw [pyRound1, harg, roundHalfEven_natCast_div_two]
  rw [roundQuartersToTenths]
  by_cases h1 : 5 * k % 2 = 0
  · simp only [if_pos h1]
    rw [Int.cast_natCast]
  · simp only [if_neg h1]
    by_cases h2 : 5 * k / 2 % 2 = 0
    · simp only [if_pos h2]
      rw [Int.cast_natCast]
    · simp only [if_neg h2]
      rw [Int.cast_natCast]

theorem roundQuartersToTenths_mono {a b : ℕ} (h : a ≤ b) :
    roundQuartersToTenths a ≤ roundQuartersToTenths b := by
  rw [roundQuartersToTenths, roundQuartersToTenths]
  split_ifs <;> omega

theorem roundQuartersToTenths_forty : roundQuartersToTenths 40 = 100 := by decide

theorem roundQuartersToTenths_four : roundQuartersToTenths 4 = 10 := by decide

/-- The base weight drawn from `SEVERITY_WEIGHTS` with default 2 is
always between 1 and 4. -/
theorem base_weight_bounds (s : String) :
    1 ≤ (List.lookup s SEVERITY_WEIGHTS).getD 2
      ∧ (List.lookup s SEVERITY_WEIGHTS).getD 2 ≤ 4 := by
  by_cases h1 : s = "Low"
  · simp [SEVERITY_WEIGHTS, List.lookup, h1]
  by_cases h2 : s = "Medium"
  · simp [SEVERITY_WEIGHTS, List.lookup, h1, h2]
  by_cases h3 : s = "High"
  · simp [SEVERITY_WEIGHTS, List.lookup, h1, h2, h3]
  by_cases h4 : s = "Critical"
  · simp [SEVERITY_WEIGHTS, List.lookup, h1, h2, h3, h4]
  · have e1 : (s == "Low") = false := beq_eq_false_iff_ne.mpr h1
    have e2 : (s == "Medium") = false := beq_eq_false_iff_ne.mpr h2
    have e3 : (s == "High") = false := beq_eq_false_iff_ne.mpr h3
    have e4 : (s == "Critical") = false := beq_eq_false_iff_ne.mpr h4
    simp [SEVERITY_WEIGHTS, List.lookup, e1, e2, e3, e4]

/-- A severity outside the weight table resolves to the default
weight 2. -/
theorem lookup_unknown {s : String}
    (h : s ∉ (["Low", "Medium", "High", "Critical"] : List String)) :
    (List.lookup s SEVERITY_WEIGHTS).getD 2 = 2 := by
  simp only [List.mem_cons, List.not_mem_nil, or_false, not_or] at h
  obtain ⟨h1, h2, h3, h4⟩ := h
  have e1 : (s == "Low") = false := beq_eq_false_iff_ne.mpr h1
  have e2 : (s == "Medium") = false := beq_eq_false_iff_ne.mpr h2
  have e3 : (s == "High") = false := beq_eq_false_iff_ne.mpr h3
  have e4 : (s == "Critical") = false := beq_eq_false_iff_ne.mpr h4
  simp [SEVERITY_WEIGHTS, List.lookup, e1, e2, e3, e4]

theorem tsLE_trans (a b c : TimelineEvent) (hab : tsLE a b = true) (hbc : tsLE b c = true) :
    tsLE a c = true :=
  dataLE_trans _ _ _ hab hbc

theorem tsLE_total (a b : TimelineEvent) : tsLE a b || tsLE b a :=
  dataLE_total _ _

theorem pairwise_filter_of {α : Type} (p : α → Bool) (R : α → α → Prop)
    (h : ∀ x y, p x = true → p y = true → R x y) :
    ∀ l : List α, (l.filter p).Pairwise R := by
  intro l
  induction l with
  | nil => simp
  | cons a l ih =>
    rw [List.filter_cons]
    by_cases hp : p a = true
    · rw [if_pos hp]
      exact List.Pairwise.cons (fun b hb => h a b hp (List.of_mem_filter hb)) ih
    · rw [if_neg hp]
      exact ih

/-- Filtering the stably sorted list to the events carrying one fixed
timestamp recovers those events in their original relative order: this
is the stability of `mergeSort` under the timeline comparison. -/
theorem filter_timestamp_mergeSort (l : List TimelineEvent) (t : String) :
    (l.mergeSort tsLE).filter (fun e => e.timestamp == t)
      = l.filter (fun e => e.timestamp == t) := by
  have hpw : (l.filter (fun e => e.timestamp == t)).Pairwise (fun a b => tsLE a b = true) := by
    refine pairwise_filter_of _ _ (fun x y hx hy => ?_) l
    have hx' : x.timestamp = t := by simpa using hx
    have hy' : y.timestamp = t := by simpa using hy
    show strLE x.timestamp y.timestamp = true
    rw [hx', hy']
    exact dataLE_refl _
  have hsub : List.Sublist (l.filter (fun e => e.timestamp == t)) (l.mergeSort tsLE) :=
    List.sublist_mergeSort tsLE_trans tsLE_total hpw (List.filter_sublist l)
  have hidem : (l.filter (fun e => e.timestamp == t)).filter (fun e => e.timestamp == t)
      = l.filter (fun e => e.timestamp == t) :=
    List.filter_eq_self.mpr (fun a ha => (List.mem_filter.mp ha).2)
  have hsub' : List.Sublist (l.filter (fun e => e.timestamp == t))
      ((l.mergeSort tsLE).filter (fun e => e.timestamp == t)) := by
    rw [← hidem]
    exact hsub.filter _
  have hperm : List.Perm ((l.mergeSort tsLE).filter (fun e => e.timestamp == t))
      (l.filter (fun e => e.timestamp == t)) :=
    (List.mergeSort_perm l tsLE).filter _
  exact (hsub'.eq_of_length hperm.length_eq.symm).symm

theorem applyTimeline_append_singleton (r : IncidentReport) (l : List TimelineEvent)
    (e : TimelineEvent) :
    applyTimeline r (l ++ [e])
      = (applyTimeline r l).add_timeline_event e.timestamp e.description e.source := by
  simp [applyTimeline, List.foldl_append]

theorem applyTimeline_only_timeline (r : IncidentReport) (evs : List TimelineEvent) :
    applyTimeline r evs = { r with timeline_events := (applyTimeline r evs).timeline_events } := by
  induction evs using List.reverseRecOn with
  | nil => rfl
  | append_singleton l e ih =>
    rw [applyTimeline_append_singleton]
    rw [IncidentReport.add_timeline_event]
    rw [ih]

theorem applyTimeline_nil (r : IncidentReport) : applyTimeline r [] = r := rfl

theorem score10_eq (r : IncidentReport) :
    r.calculate_severity_score.score10
      = roundQuartersToTenths (min ((List.lookup r.severity SEVERITY_WEIGHTS).getD 2 * 4
          + min (r.iocs.length * 2) 12 + min (r.affected_systems.length * 3) 12
          + (if r.severity = "Critical" then 6 else 0)) 40) := rfl

theorem breakdown_base_eq (r : IncidentReport) :
    r.calculate_severity_score.breakdown.base_severity
      = (List.lookup r.severity SEVERITY_WEIGHTS).getD 2 := rfl

theorem breakdown_ioc_eq (r : IncidentReport) :
    r.calculate_severity_score.breakdown.ioc_factor10
      = roundQuartersToTenths (min (r.iocs.length * 2) 12) := rfl

theorem breakdown_system_eq (r : IncidentReport) :
    r.calculate_severity_score.breakdown.system_factor10
      = roundQuartersToTenths (min (r.affected_systems.length * 3) 12) := rfl

theorem breakdown_bonus_eq (r : IncidentReport) :
    r.calculate_severity_score.breakdown.critical_bonus10
      = 5 * (if r.severity = "Critical" then 6 else 0) / 2 := rfl

theorem rating_eq (r : IncidentReport) :
    r.calculate_severity_score.rating
      = (if 80 ≤ r.calculate_severity_score.score10 then "CRITICAL"
         else if 60 ≤ r.calculate_severity_score.score10 then "HIGH"
         else if 40 ≤ r.calculate_severity_score.score10 then "MEDIUM"
         else "LOW") := rfl

theorem min_cast_div_four (a b : ℕ) :
    ((min a b : ℕ) : ℚ) / 4 = min ((a : ℚ) / 4) ((b : ℚ) / 4) := by
  rw [Nat.cast_min, min_div_div_right (by norm_num : (0:ℚ) ≤ 4)]

/-- C1: for every report state, `calculate_severity_score` returns
score `round(min(base + ioc_factor + system_factor + critical_bonus,
10.0), 1)` where `ioc_factor = min(0.5 * #iocs, 3.0)`, `system_factor
= min(0.75 * #affected_systems, 3.0)`, `critical_bonus = 1.5` exactly
when the severity is "Critical" and `0` otherwise, and `base` is the
severity's weight; the breakdown reports these four additive
components, with the ioc and system factors rounded to one decimal
place.  Float values are stated through their exact rational
denotations (`scoreQ`, tenth-counts over 10). -/
theorem calculate_severity_score_spec (r : IncidentReport) :
    r.scoreQ = specSeverityScoreQ r
    ∧ r.calculate_severity_score.breakdown.base_severity
        = (List.lookup r.severity SEVERITY_WEIGHTS).getD 2
    ∧ (r.calculate_severity_score.breakdown.ioc_factor10 : ℚ) / 10
        = pyRound1 (min ((r.iocs.length : ℚ) * (1 / 2)) 3)
    ∧ (r.calculate_severity_score.breakdown.system_factor10 : ℚ) / 10
        = pyRound1 (min ((r.affected_systems.length : ℚ) * (3 / 4)) 3)
    ∧ (r.calculate_severity_score.breakdown.critical_bonus10 : ℚ) / 10
        = (if r.severity = "Critical" then 3 / 2 else 0) := by
  refine ⟨?_, breakdown_base_eq r, ?_, ?_, ?_⟩
  · rw [IncidentReport.scoreQ, score10_eq, roundQuartersToTenths_eq_pyRound1,
      specSeverityScoreQ]
    congr 1
    rw [min_cast_div_four]
    congr 1
    · have i1 : min ((r.iocs.length : ℚ) * 2) 12 / 4
          = min ((r.iocs.length : ℚ) * (1 / 2)) 3 := by
        rw [← min_div_div_right (by norm_num : (0:ℚ) ≤ 4)]
        congr 1
        · ring
        · norm_num
      have i2 : min ((r.affected_systems.length : ℚ) * 3) 12 / 4
          = min ((r.affected_systems.length : ℚ) * (3 / 4)) 3 := by
        rw [← min_div_div_right (by norm_num : (0:ℚ) ≤ 4)]
        congr 1
        · ring
        · norm_num
      by_cases hc : r.severity = "Critical"
      · rw [if_pos hc, if_pos hc]
        push_cast
        rw [add_div, add_div, add_div, i1, i2]
        ring
      · rw [if_neg hc, if_neg hc]
        push_cast
        rw [add_div, add_div, add_div, i1, i2]
        ring
    · norm_num
  · rw [breakdown_ioc_eq, roundQuartersToTenths_eq_pyRound1]
    congr 1
    rw [min_cast_div_four]
    congr 1
    · push_cast
      ring
    · norm_num
  · rw [breakdown_system_eq, roundQuartersToTenths_eq_pyRound1]
    congr 1
    rw [min_cast_div_four]
    congr 1
    · push_cast
      ring
    · norm_num
  · rw [breakdown_bonus_eq]
    by_cases hc : r.severity = "Critical"
    · rw [if_pos hc, if_pos hc]
      norm_num
    · rw [if_neg hc, if_neg hc]
      norm_num

/-- C2: the rating is "CRITICAL" iff score >= 8, "HIGH" iff
6 <= score < 8, "MEDIUM" iff 4 <= score < 6, and "LOW" otherwise
(iff score < 4): the thresholds are inclusive lower bounds tested in
descending order, on the exact rational value of the rounded score. -/
theorem rating_thresholds (r : IncidentReport) :
    (r.calculate_severity_score.rating = "CRITICAL" ↔ 8 ≤ r.scoreQ)
    ∧ (r.calculate_severity_score.rating = "HIGH" ↔ 6 ≤ r.scoreQ ∧ r.scoreQ < 8)
    ∧ (r.calculate_severity_score.rating = "MEDIUM" ↔ 4 ≤ r.scoreQ ∧ r.scoreQ < 6)
    ∧ (r.calculate_severity_score.rating = "LOW" ↔ r.scoreQ < 4) := by
  obtain ⟨s, hs⟩ : ∃ n, r.calculate_severity_score.score10 = n := ⟨_, rfl⟩
  have hrat : r.calculate_severity_score.rating
      = (if 80 ≤ s then "CRITICAL" else if 60 ≤ s then "HIGH"
         else if 40 ≤ s then "MEDIUM" else "LOW") := by
    rw [rating_eq, hs]
  have hsq : r.scoreQ = (s : ℚ) / 10 := by rw [IncidentReport.scoreQ, hs]
  have hle : ∀ c : ℕ, ((c : ℚ) ≤ r.scoreQ ↔ c * 10 ≤ s) := by
    intro c
    rw [hsq, le_div_iff₀ (by norm_num : (0:ℚ) < 10)]
    exact_mod_cast Iff.rfl
  have hlt : ∀ c : ℕ, (r.scoreQ < (c : ℚ) ↔ s < c * 10) := by
    intro c
    rw [hsq, div_lt_iff₀ (by norm_num : (0:ℚ) < 10)]
    exact_mod_cast Iff.rfl
  have h8 : (8 ≤ r.scoreQ ↔ 80 ≤ s) := by
    have := hle 8
    norm_num at this
    exact this
  have h6 : (6 ≤ r.scoreQ ↔ 60 ≤ s) := by
    have := hle 6
    norm_num at this
    exact this
  have h4 : (4 ≤ r.scoreQ ↔ 40 ≤ s) := by
    have := hle 4
    norm_num at this
    exact this
  have h8' : (r.scoreQ < 8 ↔ s < 80) := by
    have := hlt 8
    norm_num at this
    exact this
  have h6' : (r.scoreQ < 6 ↔ s < 60) := by
    have := hlt 6
    norm_num at this
    exact this
  have h4' : (r.scoreQ < 4 ↔ s < 40) := by
    have := hlt 4
    norm_num at this
    exact this
  rw [hrat, h8, h6, h4, h8', h6', h4']
  refine ⟨?_, ?_, ?_, ?_⟩ <;>
    · split_ifs with c1 c2 c3 <;>
        simp_all <;> omega

/-- C3: starting from an empty timeline, after every sequence of
`add_timeline_event` calls the `timeline_events` collection is sorted
ascending by the timestamp string, and the sort is stable: for each
timestamp, the events carrying it appear in their insertion order
(quantifying over all call sequences covers the state after each
individual call, since every prefix is itself a call sequence). -/
theorem timeline_sorted_and_stable (r0 : IncidentReport) (evs : List TimelineEvent)
    (h0 : r0.timeline_events = []) :
    ((applyTimeline r0 evs).timeline_events).Pairwise (fun a b => tsLE a b = true)
    ∧ ∀ t : String,
        ((applyTimeline r0 evs).timeline_events).filter (fun e => e.timestamp == t)
          = evs.filter (fun e => e.timestamp == t) := by
  induction evs using List.reverseRecOn with
  | nil =>
    simp [applyTimeline, h0]
  | append_singleton l e ih =>
    rw [applyTimeline_append_singleton]
    simp only [IncidentReport.add_timeline_event]
    constructor
    · exact List.sorted_mergeSort tsLE_trans tsLE_total _
    · intro t
      rw [filter_timestamp_mergeSort, List.filter_append, List.filter_append, ih.2 t]

theorem score10_mono_iocs (r : IncidentReport) (l1 l2 : List IOC)
    (h : l1.length ≤ l2.length) :
    ({ r with iocs := l1 } : IncidentReport).calculate_severity_score.score10
      ≤ ({ r with iocs := l2 } : IncidentReport).calculate_severity_score.score10 := by
  rw [score10_eq, score10_eq]
  simp only
  apply roundQuartersToTenths_mono
  omega

theorem score10_mono_systems (r : IncidentReport) (s1 s2 : List AffectedSystem)
    (h : s1.length ≤ s2.length) :
    ({ r with affected_systems := s1 } : IncidentReport).calculate_severity_score.score10
      ≤ ({ r with affected_systems := s2 } : IncidentReport).calculate_severity_score.score10 := by
  rw [score10_eq, score10_eq]
  simp only
  apply roundQuartersToTenths_mono
  omega

theorem score10_le_100 (r : IncidentReport) :
    r.calculate_severity_score.score10 ≤ 100 := by
  rw [score10_eq]
  have h := roundQuartersToTenths_mono
    (min_le_right ((List.lookup r.severity SEVERITY_WEIGHTS).getD 2 * 4
      + min (r.iocs.length * 2) 12 + min (r.affected_systems.length * 3) 12
      + (if r.severity = "Critical" then 6 else 0)) 40)
  rw [roundQuartersToTenths_forty] at h
  exact h

/-- C4: the severity score is monotonically non-decreasing in the
number of IOCs and in the number of affected systems (all other state
fixed) and clamped at 10.0; Medium severity with 10 IOCs and 0
systems scores 5.0 rated MEDIUM, and Critical severity with 0 IOCs
and 0 systems scores 5.5 rated MEDIUM. -/
theorem severity_score_monotone_clamped :
    (∀ (r : IncidentReport) (l1 l2 : List IOC), l1.length ≤ l2.length →
      ({ r with iocs := l1 } : IncidentReport).scoreQ
        ≤ ({ r with iocs := l2 } : IncidentReport).scoreQ)
    ∧ (∀ (r : IncidentReport) (s1 s2 : List AffectedSystem), s1.length ≤ s2.length →
      ({ r with affected_systems := s1 } : IncidentReport).scoreQ
        ≤ ({ r with affected_systems := s2 } : IncidentReport).scoreQ)
    ∧ (∀ r : IncidentReport, r.scoreQ ≤ 10)
    ∧ (∀ r : IncidentReport, r.severity = "Medium" → r.iocs.length = 10 →
        r.affected_systems.length = 0 →
        r.scoreQ = 5 ∧ r.calculate_severity_score.rating = "MEDIUM")
    ∧ (∀ r : IncidentReport, r.severity = "Critical" → r.iocs.length = 0 →
        r.affected_systems.length = 0 →
        r.scoreQ = 11 / 2 ∧ r.calculate_severity_score.rating = "MEDIUM") := by
  refine ⟨?_, ?_, ?_, ?_, ?_⟩
  · intro r l1 l2 h
    rw [IncidentReport.scoreQ, IncidentReport.scoreQ]
    have hN : (({ r with iocs := l1 } : IncidentReport).calculate_severity_score.score10 : ℚ)
        ≤ (({ r with iocs := l2 } : IncidentReport).calculate_severity_score.score10 : ℚ) := by
      exact_mod_cast score10_mono_iocs r l1 l2 h
    gcongr
  · intro r s1 s2 h
    rw [IncidentReport.scoreQ, IncidentReport.scoreQ]
    have hN : (({ r with affected_systems := s1 } : IncidentReport).calculate_severity_score.score10 : ℚ)
        ≤ (({ r with affected_systems := s2 } : IncidentReport).calculate_severity_score.score10 : ℚ) := by
      exact_mod_cast score10_mono_systems r s1 s2 h
    gcongr
  · intro r
    rw [IncidentReport.scoreQ, div_le_iff₀ (by norm_num : (0:ℚ) < 10)]
    have hN := score10_le_100 r
    norm_num
    exact_mod_cast hN
  · intro r h1 h2 h3
    have hb : (List.lookup r.severity SEVERITY_WEIGHTS).getD 2 = 2 := by
      rw [h1]
      decide
    have hc : (if r.severity = "Critical" then 6 else 0) = 0 := by
      rw [h1]
      decide
    have hv : r.calculate_severity_score.score10 = 50 := by
      rw [score10_eq, hb, h2, h3, hc]
      decide
    constructor
    · rw [IncidentReport.scoreQ, hv]
      norm_num
    · rw [rating_eq, hv]
      decide
  · intro r h1 h2 h3
    have hb : (List.lookup r.severity SEVERITY_WEIGHTS).getD 2 = 4 := by
      rw [h1]
      decide
    have hc : (if r.severity = "Critical" then 6 else 0) = 6 := by
      rw [h1]
      decide
    have hv : r.calculate_severity_score.score10 = 55 := by
      rw [score10_eq, hb, h2, h3, hc]
      decide
    constructor
    · rw [IncidentReport.scoreQ, hv]
      norm_num
    · rw [rating_eq, hv]
      decide

/-- Witness for C4 at concrete inputs: adding an IOC or a system does
not decrease the score of `reportPlain`, and the two worked examples
from the specification evaluate as claimed. -/
theorem severity_score_monotone_clamped_witness :
    (({ reportPlain with iocs := ([] : List IOC) } : IncidentReport).scoreQ
      ≤ ({ reportPlain with iocs := [iocFix] } : IncidentReport).scoreQ)
    ∧ (({ reportPlain with affected_systems := ([] : List AffectedSystem) } :
          IncidentReport).scoreQ
      ≤ ({ reportPlain with affected_systems := [sysFix] } : IncidentReport).scoreQ)
    ∧ (reportMediumTen.scoreQ = 5
        ∧ reportMediumTen.calculate_severity_score.rating = "MEDIUM")
    ∧ (reportCriticalBare.scoreQ = 11 / 2
        ∧ reportCriticalBare.calculate_severity_score.rating = "MEDIUM") :=
  ⟨severity_score_monotone_clamped.1 reportPlain [] [iocFix] (by decide),
   severity_score_monotone_clamped.2.1 reportPlain [] [sysFix] (by decide),
   severity_score_monotone_clamped.2.2.2.1 reportMediumTen rfl (by decide) rfl,
   severity_score_monotone_clamped.2.2.2.2 reportCriticalBare rfl rfl rfl⟩

theorem add_recommendation_no_empty (r : IncidentReport) (s : String)
    (h : "" ∉ r.recommendations) :
    "" ∉ (r.add_recommendation s).recommendations := by
  by_cases hs : pyStrip s = ""
  · rw [IncidentReport.add_recommendation, if_pos hs]
    exact h
  · rw [IncidentReport.add_recommendation, if_neg hs]
    simp only [List.mem_append, List.mem_singleton]
    rintro (hmem | hmem)
    · exact h hmem
    · exact hs hmem.symm

/-- C5: `add_recommendation` is a silent no-op when the argument strips
to the empty string, otherwise appends exactly the stripped string;
consequently a recommendations collection that contains no empty
string never acquires one. -/
theorem add_recommendation_spec (r : IncidentReport) (s : String) :
    (pyStrip s = "" → r.add_recommendation s = r)
    ∧ (pyStrip s ≠ "" →
        (r.add_recommendation s).recommendations = r.recommendations ++ [pyStrip s])
    ∧ ("" ∉ r.recommendations → "" ∉ (r.add_recommendation s).recommendations)
    ∧ (∀ ss : List String, "" ∉ r.recommendations →
        "" ∉ (ss.foldl (fun acc t => acc.add_recommendation t) r).recommendations) := by
  refine ⟨?_, ?_, add_recommendation_no_empty r s, ?_⟩
  · intro h
    rw [IncidentReport.add_recommendation, if_pos h]
  · intro h
    rw [IncidentReport.add_recommendation, if_neg h]
  · intro ss
    induction ss generalizing r with
    | nil => intro h; exact h
    | cons t ts ih =>
      intro h
      exact ih _ (add_recommendation_no_empty r t h)

/-- Witness for C5: blank input is a no-op on `reportPlain`, a padded
recommendation is appended in stripped form, and no empty string
appears afterwards. -/
theorem add_recommendation_spec_witness :
    (pyStrip "   " = "" ∧ reportPlain.add_recommendation "   " = reportPlain)
    ∧ (pyStrip "  Patch CVE-1234  " ≠ ""
        ∧ (reportPlain.add_recommendation "  Patch CVE-1234  ").recommendations
            = reportPlain.recommendations ++ ["Patch CVE-1234"])
    ∧ "" ∉ (reportPlain.add_recommendation "   ").recommendations :=
  ⟨⟨by decide, (add_recommendation_spec reportPlain "   ").1 (by decide)⟩,
   ⟨by decide, by
      rw [(add_recommendation_spec reportPlain "  Patch CVE-1234  ").2.1 (by decide)]
      decide⟩,
   (add_recommendation_spec reportPlain "   ").2.2.1 (by decide)⟩

/-- C6: a severity outside {Low, Medium, High, Critical} does not make
`calculate_severity_score` fail (the embedding is total): it scores
with base weight 2, and `to_dict` echoes the severity string
verbatim. -/
theorem unknown_severity_spec (r : IncidentReport)
    (h : r.severity ∉ (["Low", "Medium", "High", "Critical"] : List String)) :
    r.calculate_severity_score.breakdown.base_severity = 2
    ∧ r.to_dict.severity = r.severity := by
  refine ⟨?_, rfl⟩
  rw [breakdown_base_eq]
  exact lookup_unknown h

/-- Witness for C6 at the fixture with severity "SEV-1". -/
theorem unknown_severity_spec_witness :
    reportUnknownSev.calculate_severity_score.breakdown.base_severity = 2
    ∧ reportUnknownSev.to_dict.severity = reportUnknownSev.severity :=
  unknown_severity_spec reportUnknownSev (by decide)

/-- C7: when a non-empty incident id and a non-empty creation
timestamp are supplied at construction, `__post_init__` keeps both
exactly as supplied; a generated value is used only for a field that
was not supplied (empty). -/
theorem post_init_preserves (r : IncidentReport) (genId genCreatedAt : String) :
    (r.incident_id ≠ "" → r.created_at ≠ "" → r.post_init genId genCreatedAt = r)
    ∧ (r.incident_id = "" → (r.post_init genId genCreatedAt).incident_id = genId)
    ∧ (r.created_at = "" → (r.post_init genId genCreatedAt).created_at = genCreatedAt)
    ∧ (r.incident_id ≠ "" → (r.post_init genId genCreatedAt).incident_id = r.incident_id)
    ∧ (r.created_at ≠ "" → (r.post_init genId genCreatedAt).created_at = r.created_at) := by
  refine ⟨?_, ?_, ?_, ?_, ?_⟩
  · intro h1 h2
    rw [IncidentReport.post_init, if_neg h1, if_neg h2]
  · intro h
    simp [IncidentReport.post_init, h]
  · intro h
    simp [IncidentReport.post_init, h]
  · intro h
    simp [IncidentReport.post_init, h]
  · intro h
    simp [IncidentReport.post_init, h]

/-- Witness for C7: `reportPlain` carries both fields non-empty and is
preserved whole; an empty id is replaced by the generated one. -/
theorem post_init_preserves_witness :
    reportPlain.post_init "IR-20990101-FFFF" "2099-01-01 00:00:00 UTC" = reportPlain
    ∧ (({ reportPlain with incident_id := "" } : IncidentReport).post_init
        "IR-20990101-FFFF" "2099-01-01 00:00:00 UTC").incident_id = "IR-20990101-FFFF" :=
  ⟨(post_init_preserves reportPlain _ _).1 (by decide) (by decide),
   (post_init_preserves _ _ _).2.1 rfl⟩

/-- C8: `to_dict` returns the nested structure with identity and
scalar fields, the `dates` sub-structure grouping the four lifecycle
dates, a freshly computed severity score, and the collections mapped
elementwise in their stored order; each per-entity serializer is
injective, so no information is lost. -/
theorem to_dict_spec (r : IncidentReport) :
    r.to_dict =
      { incident_id := r.incident_id
        title := r.title
        severity := r.severity
        category := r.category
        analyst := r.analyst
        description := r.description
        created_at := r.created_at
        dates :=
          { detection := r.detection_date
            containment := r.containment_date
            eradication := r.eradication_date
            recovery := r.recovery_date }
        executive_summary := r.executive_summary
        severity_score := r.calculate_severity_score
        timeline := r.timeline_events.map TimelineEvent.to_dict
        iocs := r.iocs.map IOC.to_dict
        affected_systems := r.affected_systems.map AffectedSystem.to_dict
        recommendations := r.recommendations }
    ∧ Function.Injective TimelineEvent.to_dict
    ∧ Function.Injective IOC.to_dict
    ∧ Function.Injective AffectedSystem.to_dict := by
  refine ⟨rfl, ?_, ?_, ?_⟩
  · intro a b h
    cases a
    cases b
    simpa [TimelineEvent.to_dict] using h
  · intro a b h
    cases a
    cases b
    simpa [IOC.to_dict] using h
  · intro a b h
    cases a
    cases b
    simpa [AffectedSystem.to_dict] using h

/-- Witness for C8: the serialized recommendations of `reportPlain`
are its stored list, and timeline-event serialization is injective at
a concrete pair. -/
theorem to_dict_spec_witness :
    reportPlain.to_dict.recommendations = reportPlain.recommendations
    ∧ evEarly = evEarly :=
  ⟨by rw [(to_dict_spec reportPlain).1],
   (to_dict_spec reportPlain).2.1 (rfl : evEarly.to_dict = evEarly.to_dict)⟩

/-- C9: for every report state the score lies in [1.0, 10.0]: the base
weight is at least 1 even for unknown severities and every other
component is non-negative, so a score of 0 is unreachable. -/
theorem score_range (r : IncidentReport) :
    1 ≤ r.scoreQ ∧ r.scoreQ ≤ 10 := by
  have hub := score10_le_100 r
  have hlb : 10 ≤ r.calculate_severity_score.score10 := by
    rw [score10_eq]
    have hbase := (base_weight_bounds r.severity).1
    have h4 : (4:ℕ) ≤ min ((List.lookup r.severity SEVERITY_WEIGHTS).getD 2 * 4
        + min (r.iocs.length * 2) 12 + min (r.affected_systems.length * 3) 12
        + (if r.severity = "Critical" then 6 else 0)) 40 := by
      omega
    have h := roundQuartersToTenths_mono h4
    rw [roundQuartersToTenths_four] at h
    exact h
  constructor
  · rw [IncidentReport.scoreQ, le_div_iff₀ (by norm_num : (0:ℚ) < 10)]
    norm_num
    exact_mod_cast hlb
  · rw [IncidentReport.scoreQ, div_le_iff₀ (by norm_num : (0:ℚ) < 10)]
    norm_num
    exact_mod_cast hub

/-- C10: severity matching is exact and case-sensitive: any severity
string outside the weight table (such as "critical") receives base
weight 2 and no critical bonus, and two reports differing only in the
choice of unrecognized severity string receive identical score
results. -/
theorem case_sensitive_severity (r : IncidentReport) (s : String)
    (hr : r.severity ∉ (["Low", "Medium", "High", "Critical"] : List String))
    (hs : s ∉ (["Low", "Medium", "High", "Critical"] : List String)) :
    r.calculate_severity_score.breakdown.base_severity = 2
    ∧ r.calculate_severity_score.breakdown.critical_bonus10 = 0
    ∧ ({ r with severity := s } : IncidentReport).calculate_severity_score
        = r.calculate_severity_score := by
  have hrc : r.severity ≠ "Critical" := by
    intro h
    apply hr
    rw [h]
    decide
  have hsc : s ≠ "Critical" := by
    intro h
    apply hs
    rw [h]
    decide
  refine ⟨?_, ?_, ?_⟩
  · rw [breakdown_base_eq]
    exact lookup_unknown hr
  · rw [breakdown_bonus_eq, if_neg hrc]
  · simp only [IncidentReport.calculate_severity_score]
    rw [lookup_unknown hs, lookup_unknown hr, if_neg hsc, if_neg hrc]

/-- Witness for C10 at severity "critical" against the unknown
severity "CRITICAL". -/
theorem case_sensitive_severity_witness :
    reportLowercaseCritical.calculate_severity_score.breakdown.base_severity = 2
    ∧ reportLowercaseCritical.calculate_severity_score.breakdown.critical_bonus10 = 0
    ∧ ({ reportLowercaseCritical with severity := "CRITICAL" } :
        IncidentReport).calculate_severity_score
        = reportLowercaseCritical.calculate_severity_score :=
  case_sensitive_severity reportLowercaseCritical "CRITICAL" (by decide) (by decide)

/-- Witness for C3 at a concrete sequence with a timestamp tie:
`reportPlain` starts with an empty timeline; after the three calls the
timeline is sorted and the two tied events keep insertion order. -/
theorem timeline_sorted_and_stable_witness :
    ((applyTimeline reportPlain [evTieFirst, evEarly, evTieSecond]).timeline_events).Pairwise
        (fun a b => tsLE a b = true)
    ∧ ((applyTimeline reportPlain [evTieFirst, evEarly, evTieSecond]).timeline_events).filter
        (fun e => e.timestamp == "2025-01-01 10:00")
      = ([evTieFirst, evEarly, evTieSecond].filter (fun e => e.timestamp == "2025-01-01 10:00")) :=
  ⟨(timeline_sorted_and_stable reportPlain [evTieFirst, evEarly, evTieSecond] rfl).1,
   (timeline_sorted_and_stable reportPlain [evTieFirst, evEarly, evTieSecond] rfl).2
     "2025-01-01 10:00"⟩
